import Mathlib

/-
Verification development for the robot-driver-api repository.

The repository drives a browser through an observe-plan-act loop to fetch a
product's title, price and URL.  The core logic lives in
src/agent_driver.py (page-state reader, rule-based planner, action executor,
orchestrator loop) and src/robot.py + app.py (the CLI/API variant whose
outcome shaping we also model).

Modelling conventions
  * Python strings are Lean `String`s; `s[:n]`, `s.strip()`, `s.lower()`,
    `a in b`, `s.startswith(p)` and `s[n:]` are modelled by the `py*`/`str*`
    helpers below, operating on the character list of the string.
  * A live Playwright page is modelled as a record of pure query functions
    (`count`, `visible`, `waitOk`, `attachedOk`, `innerText`), each taking the
    selector (and the timeout the source passes) and returning the outcome of
    that primitive: `none` / `false` stands for a raised timeout or a missing
    element.  Effectful primitives (goto, fill, click, scrolling, load-state
    waits) live in an `Env` record and return the next page together with an
    optional raised error; `mouse.wheel` is best-effort in the source (its
    exceptions are swallowed), so it is modelled as a total page transformer.
  * Exceptions are values of `PwError` (`timeout` for Playwright timeout
    errors, `runtime` for RuntimeError); fallible code returns `Except`.
  * The orchestrator loop `for _ in range(10)` is embedded with explicit fuel;
    the second component of `agent_iterP`'s result is ghost instrumentation
    counting how many loop bodies were entered.
-/

/-- Python `s[:n]` (slice of the first `n` characters). -/
def pySlice (s : String) (n : Nat) : String := String.mk (s.data.take n)

/-- Python `s[n:]` (drop the first `n` characters). -/
def strDrop (s : String) (n : Nat) : String := String.mk (s.data.drop n)

/-- Python `s.strip()` (drop leading and trailing whitespace). -/
def pyStrip (s : String) : String :=
  String.mk (((s.data.dropWhile Char.isWhitespace).reverse.dropWhile Char.isWhitespace).reverse)

/-- Python `s.lower()` (the strings involved are ASCII). -/
def pyLower (s : String) : String := String.mk (s.data.map Char.toLower)

/-- Substring test on character lists: `needle` occurs contiguously in `hay`. -/
def listContainsSub (needle hay : List Char) : Bool :=
  (List.range (hay.length + 1)).any (fun i => needle.isPrefixOf (hay.drop i))

/-- Python `needle in hay` on strings. -/
def strContains (hay needle : String) : Bool := listContainsSub needle.data hay.data

/-- Python `s.startswith(p)`. -/
def strStartsWith (s p : String) : Bool := p.data.isPrefixOf s.data

/-- Python truthiness of an optional string: `None` and `""` are falsy. -/
def pyTruthy (o : Option String) : Bool :=
  match o with
  | some s => !(s == "")
  | none => false

namespace Agent

/-- Errors raised by the modelled Playwright primitives: `timeout` for
`TimeoutError` (carrying the selector or URL waited on), `runtime` for
Python `RuntimeError` (carrying the message). -/
inductive PwError where
  | timeout (selector : String)
  | runtime (msg : String)
  deriving DecidableEq, Repr

/-- One raw candidate element as seen by `read_page_state` in
src/agent_driver.py: each field is the outcome of the corresponding
best-effort extraction (`none` stands for a raised exception or an absent
attribute, exactly the value the `except` branch produces). -/
structure RawElem where
  tag : Option String
  innerText : Option String
  role : Option String
  placeholder : Option String
  ariaLabel : Option String
  ariaLabelledBy : Option String
  labelledByText : Option String
  selectorGuess : Option String
  deriving DecidableEq, Repr

/-- One retained element of the page snapshot (the dict appended to
`snapshot` in `read_page_state`). -/
structure Node where
  tag : Option String
  role : Option String
  text : String
  placeholder : Option String
  ariaLabel : Option String
  selectorGuess : Option String
  deriving DecidableEq, Repr

/-- The dict returned by `read_page_state`: `{"url": ..., "snapshot": [...]}`. -/
structure PageState where
  url : String
  snapshot : List Node
  deriving DecidableEq, Repr

/-- A live page, as the pure outcomes of its query primitives.
`raw` is the element list `locator_candidates.all()` queried by
`read_page_state`; `count sel` is `page.locator(sel).count()`;
`visible sel t` is `locator.is_visible(timeout=t)`;
`waitOk sel t` tells whether `page.wait_for_selector(sel, timeout=t)`
returns (rather than raising a timeout); `attachedOk sel t` likewise for
`locator.wait_for(state="attached", timeout=t)`; `innerText sel t` is the
result of `locator.first.inner_text(timeout=t)` (`none` = raised). -/
structure Page where
  url : String
  raw : List RawElem
  count : String → Nat
  visible : String → Nat → Bool
  waitOk : String → Nat → Bool
  attachedOk : String → Nat → Bool
  innerText : String → Nat → Option String

/-- Effectful browser primitives: each returns the resulting page plus an
optional raised error.  `wheel` models `page.mouse.wheel(0, d)` whose
exceptions the source always swallows. -/
structure Env where
  goto : Page → String → Page × Option PwError
  fill : Page → String → String → Page × Option PwError
  click : Page → String → Nat → Page × Option PwError
  scrollIntoView : Page → String → Nat → Page × Option PwError
  loadState : Page → Nat → Page × Option PwError
  wheel : Page → Nat → Page

/-- `text = el.inner_text().strip()` with `except: text = ""`. -/
def elemText (el : RawElem) : String :=
  match el.innerText with
  | some t => pyStrip t
  | none => ""

/-- The `aria-label` fallback in `read_page_state`: when the direct
`aria-label` is falsy and an `aria-labelledby` id is truthy, the label is
resolved through the referenced element (the `el.evaluate` result). -/
def resolveAriaLabel (el : RawElem) : Option String :=
  if pyTruthy el.ariaLabel then el.ariaLabel
  else
    match el.ariaLabelledBy with
    | some id => if id != "" then el.labelledByText else el.ariaLabel
    | none => el.ariaLabel

/-- The inclusion heuristic of `read_page_state` (the `keep` flag). -/
def keepElem (el : RawElem) : Bool :=
  let text := elemText el
  let tagIn : List String → Bool := fun l =>
    match el.tag with
    | some t => l.contains t
    | none => false
  tagIn ["BUTTON", "A", "INPUT", "SELECT", "TEXTAREA"] ||
  (match el.selectorGuess with
   | some sg => !(sg == "") && strContains sg "productTitle"
   | none => false) ||
  strContains (pyLower (el.selectorGuess.getD "")) "price" ||
  strContains text "$" ||
  (tagIn ["H1", "H2", "H3"] && !(text == ""))

/-- The dict appended to `snapshot` for a kept element (text truncated to
200 characters). -/
def summarize (el : RawElem) : Node :=
  { tag := el.tag
    role := el.role
    text := pySlice (elemText el) 200
    placeholder := el.placeholder
    ariaLabel := resolveAriaLabel el
    selectorGuess := el.selectorGuess }

/-- `read_page_state` of src/agent_driver.py: cap raw candidates at 200,
keep the elements matching the inclusion heuristic, truncate the result to
the first 60. -/
def read_page_state (page : Page) : PageState :=
  { url := page.url
    snapshot := (((page.raw.take 200).filter keepElem).map summarize).take 60 }

/-- First product-link pattern: Amazon search-result tile heading link. -/
def sel_dp_heading : String := "div.s-main-slot h2 a[href*=\x27/dp/\x27]"

/-- Second, looser pattern: any heading link under the results grid. -/
def sel_heading : String := "div.s-main-slot h2 a"

/-- Third pattern: any link with `/dp/` in its href. -/
def sel_any_dp : String := "a[href*=\x27/dp/\x27]"

/-- `find_first_product_link` of src/agent_driver.py: the three patterns
tried in order, first with at least one match wins. -/
def find_first_product_link (page : Page) : Option String :=
  if 0 < page.count sel_dp_heading then some sel_dp_heading
  else if 0 < page.count sel_heading then some sel_heading
  else if 0 < page.count sel_any_dp then some sel_any_dp
  else none

/-- The `candidate_selectors` list of `extract_price_text`. -/
def candidate_selectors : List String :=
  ["#corePriceDisplay_desktop_feature_div span.a-offscreen",
   "#apex_desktop span.a-offscreen",
   "span#priceblock_ourprice",
   "span#priceblock_dealprice",
   "span.a-price span.a-offscreen"]

/-- One candidate attempt inside `extract_price_text`: wait for the selector
to be attached (timeout 5000), then read and strip its inner text
(timeout 2000); `none` means some step raised and the `except` branch runs. -/
def priceAttempt (page : Page) (sel : String) : Option String :=
  if page.attachedOk sel 5000 then
    match page.innerText sel 2000 with
    | some raw => some (pyStrip raw)
    | none => none
  else none

/-- The stripped text a candidate yields, with a failed attempt reading as
`""` (a candidate succeeds exactly when this is nonempty). -/
def candValue (page : Page) (sel : String) : String := (priceAttempt page sel).getD ""

/-- The loop of `extract_price_text`, instrumented: the first component is
the returned price text, the second (ghost) component records the selectors
attempted, in order. -/
def extractPriceGo (page : Page) : List String → String × List String
  | [] => ("", [])
  | sel :: rest =>
    match priceAttempt page sel with
    | some t =>
      if t != "" then (t, [sel])
      else
        let r := extractPriceGo page rest
        (r.1, sel :: r.2)
    | none =>
      let r := extractPriceGo page rest
      (r.1, sel :: r.2)

/-- `extract_price_text` of src/agent_driver.py. -/
def extract_price_text (page : Page) : String :=
  (extractPriceGo page candidate_selectors).1

/-- Ghost observer: the candidate selectors `extract_price_text` tries. -/
def price_selectors_tried (page : Page) : List String :=
  (extractPriceGo page candidate_selectors).2

/-- One plan step, the dicts produced by `ask_llm`; absent keys are `none`
(`step.get(...)` reads them with a default). -/
structure Step where
  action : String
  selector : Option String := none
  value : Option String := none
  url : Option String := none
  result : Option String := none
  deriving DecidableEq, Repr

/-- The click-with-retry tail of the `click` branch of `do_action`:
wait for the (already resolved) selector, click with timeout 10000, and on
a click timeout scroll the element into view and click once more.  Only
`PWTimeoutError` is caught; every other error propagates. -/
def clickResolved (env : Env) (page : Page) (sel : String) : Except PwError (Page × String) :=
  if page.waitOk sel 10000 then
    match env.click page sel 10000 with
    | (p1, none) => Except.ok (p1, "clicked:" ++ sel)
    | (p1, some (PwError.timeout _)) =>
      match env.scrollIntoView p1 sel 5000 with
      | (p2, none) =>
        match env.click p2 sel 5000 with
        | (p3, none) => Except.ok (p3, "clicked:" ++ sel)
        | (_, some e) => Except.error e
      | (_, some e) => Except.error e
    | (_, some e) => Except.error e
  else Except.error (PwError.timeout sel)

/-- The wait-plus-fallback tail of the `wait_for_selector` branch of
`do_action`.  `origSel` is `step.get("selector", "")`; `sel` is the selector
actually waited on (the resolved one when resolution succeeded, otherwise
the original, including the literal virtual token).  On timeout, if the
request concerned the product-link/results area, scroll and retry resolution
once; if that retry resolves, wait briefly on the new selector, else
re-raise the original timeout. -/
def waitWithFallback (env : Env) (page : Page) (origSel sel : String) :
    Except PwError (Page × String) :=
  if page.waitOk sel 15000 then Except.ok (page, "waited:" ++ sel)
  else
    if strContains origSel "__FIRST_PRODUCT_LINK__" || strContains sel "s-main-slot" ||
        strContains sel "dp/" then
      let p2 := env.wheel page 1600
      match find_first_product_link p2 with
      | some dyn2 =>
        if p2.waitOk dyn2 5000 then Except.ok (p2, "waited:fallback:" ++ dyn2)
        else Except.error (PwError.timeout dyn2)
      | none => Except.error (PwError.timeout sel)
    else Except.error (PwError.timeout sel)

/-- `do_action` of src/agent_driver.py: execute one plan step, returning the
resulting page and the action-result string, or the raised error. -/
def do_action (env : Env) (page : Page) (step : Step) : Except PwError (Page × String) :=
  if step.action == "goto" then
    match env.goto page (step.url.getD "") with
    | (p1, none) => Except.ok (p1, "navigated")
    | (_, some e) => Except.error e
  else if step.action == "fill" then
    let sel := step.selector.getD ""
    if page.waitOk sel 10000 then
      match env.fill page sel (step.value.getD "") with
      | (p1, none) => Except.ok (p1, "filled:" ++ sel)
      | (_, some e) => Except.error e
    else Except.error (PwError.timeout sel)
  else if step.action == "click" then
    let sel := step.selector.getD ""
    if sel == "__FIRST_PRODUCT_LINK__" then
      let p1 := env.wheel page 800
      match find_first_product_link p1 with
      | none => Except.error (PwError.runtime "Could not locate any product link on results page.")
      | some dyn => clickResolved env p1 dyn
    else clickResolved env page sel
  else if step.action == "wait_for_selector" then
    let origSel := step.selector.getD ""
    if origSel == "__FIRST_PRODUCT_LINK__" then
      let p1 := env.wheel page 1000
      match find_first_product_link p1 with
      | some dyn => waitWithFallback env p1 origSel dyn
      | none => waitWithFallback env p1 origSel origSel
    else waitWithFallback env page origSel origSel
  else if step.action == "extract_text" then
    let sel := step.selector.getD ""
    if sel == "__PRICE__" then Except.ok (page, "extracted:" ++ extract_price_text page)
    else if page.waitOk sel 10000 then
      match page.innerText sel 5000 with
      | some t => Except.ok (page, "extracted:" ++ pyStrip t)
      | none => Except.error (PwError.timeout sel)
    else Except.error (PwError.timeout sel)
  else if step.action == "final_answer" then
    Except.ok (page, "FINAL:" ++ step.result.getD "")
  else Except.ok (page, "unknown_action:" ++ step.action)

/-- The `has_search_box` closure of `ask_llm`. -/
def hasSearchBox (snapshot : List Node) : Bool :=
  snapshot.any fun node =>
    let sel := pyLower (node.selectorGuess.getD "")
    strContains sel "#twotabsearchtextbox" || strContains sel "twotabsearchtextbox"

/-- The `sees_continue_shopping` closure of `ask_llm`. -/
def seesContinueShopping (snapshot : List Node) : Bool :=
  snapshot.any fun node =>
    strContains (pyLower (pyStrip node.text)) "continue shopping"

/-- `ask_llm` of src/agent_driver.py: the rule-based planner, a pure function
from (goal, page state) to the next plan steps; rules are tried in order,
first match wins. -/
def ask_llm (goal : String) (page_state : PageState) : List Step :=
  let url := page_state.url
  let snapshot := page_state.snapshot
  if seesContinueShopping snapshot && !hasSearchBox snapshot then
    [{ action := "click", selector := some "text=Continue shopping" },
     { action := "wait_for_selector", selector := some "#twotabsearchtextbox" }]
  else if strContains url "amazon.com" && !strContains url "s?k=" &&
      !strContains url "/dp/" && hasSearchBox snapshot then
    [{ action := "wait_for_selector", selector := some "#twotabsearchtextbox" },
     { action := "fill", selector := some "#twotabsearchtextbox", value := some goal },
     { action := "click", selector := some "#nav-search-submit-button" },
     { action := "wait_for_selector", selector := some "__FIRST_PRODUCT_LINK__" }]
  else if strContains url "s?k=" then
    [{ action := "wait_for_selector", selector := some "__FIRST_PRODUCT_LINK__" },
     { action := "click", selector := some "__FIRST_PRODUCT_LINK__" },
     { action := "wait_for_selector", selector := some "#productTitle" }]
  else if strContains url "/dp/" then
    [{ action := "wait_for_selector", selector := some "#productTitle" },
     { action := "extract_text", selector := some "__PRICE__" },
     { action := "extract_text", selector := some "#productTitle" },
     { action := "final_answer", result := some "Scraped price and title from product page" }]
  else
    [{ action := "goto", url := some "https://www.amazon.com/" },
     { action := "wait_for_selector", selector := some "#twotabsearchtextbox" }]

/-- The URL condition of planner rule 1 (home page), spec class `Home`. -/
def urlMatchesHome (url : String) : Bool :=
  strContains url "amazon.com" && !strContains url "s?k=" && !strContains url "/dp/"

/-- The URL condition of planner rule 2 (search results), spec class `Results`. -/
def urlMatchesResults (url : String) : Bool := strContains url "s?k="

/-- The URL condition of planner rule 3 (product page), spec class `Product`. -/
def urlMatchesProduct (url : String) : Bool := strContains url "/dp/"

/-- `handle_bot_gate` of src/agent_driver.py: if the interstitial button is
visible, click it and wait for the load state; every exception is swallowed,
so the function returns whatever page state the attempt reached. -/
def handle_bot_gate (env : Env) (page : Page) : Page :=
  if page.visible "text=Continue shopping" 2000 then
    match env.click page "text=Continue shopping" 30000 with
    | (p1, some _) => p1
    | (p1, none) => (env.loadState p1 5000).1
  else page

/-- One step execution inside the orchestrator loop: after clicking the
search submit button the loop additionally waits (best-effort, timeout
swallowed) for the dom-content-loaded state. -/
def exec_step (env : Env) (page : Page) (step : Step) : Except PwError (Page × String) :=
  match do_action env page step with
  | Except.error e => Except.error e
  | Except.ok (p1, r) =>
    if step.action == "click" && step.selector == some "#nav-search-submit-button" then
      Except.ok ((env.loadState p1 8000).1, r)
    else Except.ok (p1, r)

/-- The inner `for step in steps` loop of `agent_run`: execute steps in
order; a result starting with `"FINAL:"` captures the final answer (the text
after the prefix) and breaks. -/
def run_steps (env : Env) : Page → List Step → Except PwError (Page × Option String)
  | p, [] => Except.ok (p, none)
  | p, step :: rest =>
    match exec_step env p step with
    | Except.error e => Except.error e
    | Except.ok (p1, r) =>
      if strStartsWith r "FINAL:" then Except.ok (p1, some (strDrop r 6))
      else run_steps env p1 rest

/-- The `for _ in range(10)` loop of `agent_run`, generalized over the
planner (the source instantiates it with `ask_llm`) and instrumented: the
result carries the captured final answer (if any) and a ghost count of how
many loop bodies were entered. -/
def agent_iterP (env : Env) (planner : String → PageState → List Step) (goal : String) :
    Nat → Page → Except PwError (Option String × Nat)
  | 0, _ => Except.ok (none, 0)
  | n + 1, p =>
    let p1 := handle_bot_gate env p
    let steps := planner goal (read_page_state p1)
    if steps = [] then Except.ok (none, 1)
    else
      match run_steps env p1 steps with
      | Except.error e => Except.error e
      | Except.ok (_, some fr) => Except.ok (some fr, 1)
      | Except.ok (p2, none) =>
        match agent_iterP env planner goal n p2 with
        | Except.error e => Except.error e
        | Except.ok (r, c) => Except.ok (r, c + 1)

/-- Python `final_result or "No final answer produced."`: `None` and the
empty string both fall back to the default message. -/
def finalOr : Option String → String
  | some s => if s = "" then "No final answer produced." else s
  | none => "No final answer produced."

/-- `agent_run` of src/agent_driver.py, generalized over the planner:
navigate to the site root (errors propagate to the caller), run at most 10
observe-plan-act cycles, and return the captured final answer or the default
message. -/
def agent_runP (env : Env) (planner : String → PageState → List Step) (goal : String)
    (p0 : Page) : Except PwError String :=
  let nav := env.goto p0 "https://www.amazon.com/"
  match nav.2 with
  | some e => Except.error e
  | none =>
    match agent_iterP env planner goal 10 nav.1 with
    | Except.error e => Except.error e
    | Except.ok rc => Except.ok (finalOr rc.1)

/-- `agent_run` as the source has it, with the rule-based planner. -/
def agent_run (env : Env) (goal : String) (p0 : Page) : Except PwError String :=
  agent_runP env ask_llm goal p0

end Agent

namespace Robot

/-- A live page as seen by src/robot.py: `visible sel t` is
`locator(sel).first.is_visible(timeout=t)`; `innerText sel` is
`locator(sel).first.inner_text()` (`none` = raised); `titleVisible` /
`titleText` are the same queries through the `filter(has_not=
input#productTitle)` locator used by `get_product_title`; `headingText` is
`get_by_role("heading").first.inner_text(timeout=3000)`. -/
structure RPage where
  url : String
  visible : String → Nat → Bool
  innerText : String → Option String
  titleVisible : String → Nat → Bool
  titleText : String → Option String
  headingText : Option String

/-- The `candidates` list of `extract_price` in src/robot.py. -/
def price_candidates : List String :=
  ["#corePriceDisplay_desktop_feature_div span.a-offscreen",
   "#apex_desktop span.a-price span.a-offscreen",
   "span#priceblock_ourprice",
   "span#priceblock_dealprice",
   "span.a-price.aok-align-center span.a-offscreen",
   "span.a-price span.a-offscreen"]

/-- The loop of `extract_price`: first visible candidate with nonempty
stripped text wins; exceptions move on to the next candidate. -/
def extractPriceLoop (page : RPage) : List String → Option String
  | [] => none
  | sel :: rest =>
    if page.visible sel 2000 then
      match page.innerText sel with
      | some raw =>
        let t := pyStrip raw
        if t != "" then some t else extractPriceLoop page rest
      | none => extractPriceLoop page rest
    else extractPriceLoop page rest

/-- `extract_price` of src/robot.py: `None` when every candidate fails. -/
def extract_price (page : RPage) : Option String :=
  extractPriceLoop page price_candidates

/-- The title candidate selectors of `get_product_title`. -/
def title_candidates : List String :=
  ["h1 span#productTitle", "#title span#productTitle", "span#productTitle"]

/-- The loop of `get_product_title`, with its heading fallback. -/
def titleLoop (page : RPage) : List String → String
  | [] =>
    match page.headingText with
    | some t => pyStrip t
    | none => ""
  | sel :: rest =>
    if page.titleVisible sel 3000 then
      match page.titleText sel with
      | some t => pyStrip t
      | none => titleLoop page rest
    else titleLoop page rest

/-- `get_product_title` of src/robot.py. -/
def get_product_title (page : RPage) : String := titleLoop page title_candidates

/-- The value `run` of src/robot.py returns on its no-exception path
(lines 406-419): `(title, price, url)` where `url` is `page.url`, the
product page URL.  (On an exception the tuple is
`("", None, "ERROR: <kind>: <message>")` instead.) -/
def run_noexc (page : RPage) : String × Option String × String :=
  (get_product_title page, extract_price page, page.url)

/-- The `RunResponse` model of app.py. -/
structure RunResponse where
  status : String
  query : String
  title : Option String
  price : Option String
  url : Option String
  reason : Option String
  deriving DecidableEq, Repr

/-- The outcome shaping of `run_agent` in app.py (lines 112-131) applied to
the tuple `run_robot` returned without raising: a truthy price yields
SUCCESS, otherwise FAILURE with `reason = url_or_err or "Price not found"`. -/
def run_agent_response (query : String) (robotResult : String × Option String × String) :
    RunResponse :=
  let title := robotResult.1
  let price := robotResult.2.1
  let urlOrErr := robotResult.2.2
  if pyTruthy price then
    { status := "SUCCESS", query := query, title := some title, price := price,
      url := some urlOrErr, reason := none }
  else
    { status := "FAILURE", query := query, title := none, price := none, url := none,
      reason := some (if urlOrErr != "" then urlOrErr else "Price not found") }

/-- A product page on which every price candidate selector is invisible and
every text read fails: `extract_price` exhausts all candidates. -/
def noPricePage : RPage :=
  { url := "https://www.amazon.com/dp/B0TEST123"
    visible := fun _ _ => false
    innerText := fun _ => none
    titleVisible := fun _ _ => false
    titleText := fun _ => none
    headingText := some "Test Product" }

end Robot

namespace Agent

/-- The plan step `{"action": "click", "selector": "__FIRST_PRODUCT_LINK__"}`. -/
def fplClickStep : Step := { action := "click", selector := some "__FIRST_PRODUCT_LINK__" }

/-- The plan step `{"action": "wait_for_selector", "selector": "__FIRST_PRODUCT_LINK__"}`. -/
def fplWaitStep : Step := { action := "wait_for_selector", selector := some "__FIRST_PRODUCT_LINK__" }

/-- A quiescent page: no raw elements, no selector matches, every wait
succeeds immediately.  Used as a concrete run fixture. -/
def idlePage : Page :=
  { url := ""
    raw := []
    count := fun _ => 0
    visible := fun _ _ => false
    waitOk := fun _ _ => true
    attachedOk := fun _ _ => false
    innerText := fun _ _ => none }

/-- An environment whose effectful primitives always succeed and leave the
page unchanged. -/
def idleEnv : Env :=
  { goto := fun p _ => (p, none)
    fill := fun p _ _ => (p, none)
    click := fun p _ _ => (p, none)
    scrollIntoView := fun p _ _ => (p, none)
    loadState := fun p _ => (p, none)
    wheel := fun p _ => p }

/-- A results page lacking the primary tile pattern but containing the
looser heading-link pattern. -/
def loosePage : Page :=
  { idlePage with count := fun s => if s == sel_heading then 1 else 0 }

/-- A page where every wait times out and no product-link pattern matches. -/
def noLinkPage : Page :=
  { idlePage with waitOk := fun _ _ => false }

/-- A product page where only the second price candidate is attached and
populated (with surrounding whitespace that `.strip()` removes). -/
def secondOnlyPage : Page :=
  { idlePage with
    attachedOk := fun s _ => s == "#apex_desktop span.a-offscreen"
    innerText := fun s _ =>
      if s == "#apex_desktop span.a-offscreen" then some " $199.99 " else none }

/-- A page state showing the anti-bot interstitial while its URL also
matches the product-page rule. -/
def gateProductState : PageState :=
  { url := "https://www.amazon.com/dp/B0TEST123"
    snapshot := [{ tag := some "BUTTON", role := none, text := " Continue Shopping ",
                   placeholder := none, ariaLabel := none, selectorGuess := some "button" }] }

/-- A page state showing the anti-bot interstitial under a URL that matches
none of the planner's URL patterns. -/
def gateUnknownState : PageState :=
  { url := ""
    snapshot := [{ tag := some "BUTTON", role := none, text := "Continue shopping",
                   placeholder := none, ariaLabel := none, selectorGuess := some "button" }] }

/-- A hypothetical planner that emits a `final_answer` step whose result
payload is the empty string. -/
def emptyFinalPlanner : String → PageState → List Step :=
  fun _ _ => [{ action := "final_answer", result := some "" }]

end Agent

/-- C1: the claim says a run that completes without an unrecovered exception
but with no price found reports `reason = "Price not found"`.  The code
instead reports the product page URL: on the no-exception path `run` returns
`(title, None, page.url)` and `run_agent` computes
`reason = url_or_err or "Price not found"`, where `url_or_err` is the
nonempty product URL.  This theorem evaluates the embedded code at the
failing input. -/
theorem price_missing_reason_is_url :
    Robot.extract_price Robot.noPricePage = none ∧
    (Robot.run_agent_response "Apple AirPods Pro" (Robot.run_noexc Robot.noPricePage)).status =
      "FAILURE" ∧
    (Robot.run_agent_response "Apple AirPods Pro" (Robot.run_noexc Robot.noPricePage)).reason =
      some "https://www.amazon.com/dp/B0TEST123" ∧
    (Robot.run_agent_response "Apple AirPods Pro" (Robot.run_noexc Robot.noPricePage)).reason ≠
      some "Price not found" := by
  refine ⟨rfl, rfl, rfl, by decide⟩

/-- C2: every page snapshot produced by the page-state reader retains at
most 60 elements, and every retained element's text has length at most 200
characters. -/
theorem snapshot_bounds (page : Agent.Page) :
    (Agent.read_page_state page).snapshot.length ≤ 60 ∧
    ((Agent.read_page_state page).snapshot.all fun n => n.text.length ≤ 200) = true := by
  refine ⟨List.length_take_le 60 _, ?_⟩
  simp only [List.all_eq_true, decide_eq_true_eq, Agent.read_page_state]
  intro n hn
  have hn2 := List.take_subset 60 _ hn
  rcases List.mem_map.mp hn2 with ⟨el, _, rfl⟩
  show ((Agent.elemText el).data.take 200).length ≤ 200
  exact List.length_take_le 200 _

/-- C3: the planner is a pure deterministic function of the goal string and
the page-state snapshot: any two invocations with identical inputs return
identical action lists (the embedding takes no page handle at all, so no
rule can query live page state). -/
theorem planner_deterministic (g1 g2 : String) (s1 s2 : Agent.PageState)
    (hg : g1 = g2) (hs : s1 = s2) : Agent.ask_llm g1 s1 = Agent.ask_llm g2 s2 := by
  rw [hg, hs]

/-- Witness for `planner_deterministic` at a concrete goal and snapshot. -/
theorem planner_deterministic_witness :
    Agent.ask_llm "Apple AirPods Pro" { url := "", snapshot := [] } =
      Agent.ask_llm "Apple AirPods Pro" { url := "", snapshot := [] } :=
  planner_deterministic "Apple AirPods Pro" "Apple AirPods Pro" _ _ rfl rfl

/-- C4: whenever the snapshot shows "continue shopping" text and no search
box, the planner returns the two-step interstitial-dismissal list,
regardless of the URL (rule 0 is checked first). -/
theorem interstitial_priority (goal : String) (ps : Agent.PageState)
    (hsee : Agent.seesContinueShopping ps.snapshot = true)
    (hbox : Agent.hasSearchBox ps.snapshot = false) :
    Agent.ask_llm goal ps =
      [{ action := "click", selector := some "text=Continue shopping" },
       { action := "wait_for_selector", selector := some "#twotabsearchtextbox" }] := by
  simp [Agent.ask_llm, hsee, hbox]

/-- Witness for `interstitial_priority`: a gate snapshot whose URL also
matches the product-page rule still yields the interstitial plan. -/
theorem interstitial_priority_witness :
    Agent.seesContinueShopping Agent.gateProductState.snapshot = true ∧
    Agent.hasSearchBox Agent.gateProductState.snapshot = false ∧
    Agent.urlMatchesProduct Agent.gateProductState.url = true ∧
    Agent.ask_llm "Apple AirPods Pro" Agent.gateProductState =
      [{ action := "click", selector := some "text=Continue shopping" },
       { action := "wait_for_selector", selector := some "#twotabsearchtextbox" }] :=
  ⟨by decide, by decide, by decide,
   interstitial_priority "Apple AirPods Pro" Agent.gateProductState (by decide) (by decide)⟩

/-- C5 counterexample: a page state whose URL matches none of the planner's
URL patterns but whose snapshot satisfies the interstitial-gate rule makes
the planner return the interstitial plan, not the reset-to-home plan, so
the claim as stated is false. -/
theorem recovery_counterexample :
    Agent.urlMatchesHome Agent.gateUnknownState.url = false ∧
    Agent.urlMatchesResults Agent.gateUnknownState.url = false ∧
    Agent.urlMatchesProduct Agent.gateUnknownState.url = false ∧
    Agent.ask_llm "Apple AirPods Pro" Agent.gateUnknownState =
      [{ action := "click", selector := some "text=Continue shopping" },
       { action := "wait_for_selector", selector := some "#twotabsearchtextbox" }] ∧
    Agent.ask_llm "Apple AirPods Pro" Agent.gateUnknownState ≠
      [{ action := "goto", url := some "https://www.amazon.com/" },
       { action := "wait_for_selector", selector := some "#twotabsearchtextbox" }] := by
  refine ⟨by decide, by decide, by decide, by decide, by decide⟩

/-- C5 (amended): for every input whose URL matches none of the planner's
URL patterns and which does not satisfy the interstitial-gate rule, the
planner returns exactly the reset-to-home plan (in particular, never an
empty list). -/
theorem recovery_amended (goal : String) (ps : Agent.PageState)
    (hgate : (Agent.seesContinueShopping ps.snapshot && !Agent.hasSearchBox ps.snapshot) = false)
    (hhome : Agent.urlMatchesHome ps.url = false)
    (hres : Agent.urlMatchesResults ps.url = false)
    (hprod : Agent.urlMatchesProduct ps.url = false) :
    Agent.ask_llm goal ps =
      [{ action := "goto", url := some "https://www.amazon.com/" },
       { action := "wait_for_selector", selector := some "#twotabsearchtextbox" }] := by
  have hres2 : strContains ps.url "s?k=" = false := hres
  have hprod2 : strContains ps.url "/dp/" = false := hprod
  have hamz : strContains ps.url "amazon.com" = false := by
    simp only [Agent.urlMatchesHome, hres2, hprod2, Bool.not_false, Bool.and_true] at hhome
    exact hhome
  simp [Agent.ask_llm, hgate, hamz, hres2, hprod2]

/-- Witness for `recovery_amended` at a concrete unrecognized page state. -/
theorem recovery_amended_witness :
    Agent.ask_llm "Apple AirPods Pro" { url := "about:blank", snapshot := [] } =
      [{ action := "goto", url := some "https://www.amazon.com/" },
       { action := "wait_for_selector", selector := some "#twotabsearchtextbox" }] :=
  recovery_amended "Apple AirPods Pro" { url := "about:blank", snapshot := [] }
    (by decide) (by decide) (by decide) (by decide)

/-- Candidates that fail or yield empty text are skipped: the loop recurses
past them, recording each attempt. -/
theorem extractPriceGo_skip (page : Agent.Page) (pre rest : List String)
    (hpre : ∀ s ∈ pre, Agent.candValue page s = "") :
    Agent.extractPriceGo page (pre ++ rest) =
      ((Agent.extractPriceGo page rest).1, pre ++ (Agent.extractPriceGo page rest).2) := by
  induction pre with
  | nil => simp
  | cons a l ih =>
    have ha := hpre a (List.mem_cons_self a l)
    have hl : ∀ s ∈ l, Agent.candValue page s = "" :=
      fun s hs => hpre s (List.mem_cons_of_mem a hs)
    simp only [List.cons_append, Agent.extractPriceGo]
    cases hpa : Agent.priceAttempt page a with
    | none => simp [ih hl]
    | some t =>
      have ht : t = "" := by
        have h2 := ha
        simp only [Agent.candValue, hpa, Option.getD_some] at h2
        exact h2
      subst ht
      simp [ih hl]

/-- A candidate with nonempty stripped text stops the loop at once. -/
theorem extractPriceGo_hit (page : Agent.Page) (sel : String) (rest : List String)
    (hsel : Agent.candValue page sel ≠ "") :
    Agent.extractPriceGo page (sel :: rest) = (Agent.candValue page sel, [sel]) := by
  cases hpa : Agent.priceAttempt page sel with
  | none =>
    exact absurd (by simp [Agent.candValue, hpa]) hsel
  | some t =>
    have ht : ¬(t = "") := by
      simpa [Agent.candValue, hpa] using hsel
    simp [Agent.extractPriceGo, hpa, ht, Agent.candValue]

/-- When every candidate fails or is empty the loop returns the empty
string, having tried the whole list. -/
theorem extractPriceGo_all_empty (page : Agent.Page) (l : List String)
    (h : ∀ s ∈ l, Agent.candValue page s = "") :
    Agent.extractPriceGo page l = ("", l) := by
  have h2 := extractPriceGo_skip page l [] h
  simpa [Agent.extractPriceGo] using h2

/-- C6: `extract_price_text` tries its candidate selectors in the fixed
order; it returns the value of the first candidate that is attached with
nonempty stripped text, having tried exactly the candidates up to and
including it; and when every candidate fails or yields empty text it
returns the empty string (a value, not an exception), having tried them
all. -/
theorem extract_price_first_match (page : Agent.Page) :
    (∀ pre sel post, Agent.candidate_selectors = pre ++ sel :: post →
      (∀ s ∈ pre, Agent.candValue page s = "") → Agent.candValue page sel ≠ "" →
      Agent.extract_price_text page = Agent.candValue page sel ∧
      Agent.price_selectors_tried page = pre ++ [sel]) ∧
    ((∀ s ∈ Agent.candidate_selectors, Agent.candValue page s = "") →
      Agent.extract_price_text page = "" ∧
      Agent.price_selectors_tried page = Agent.candidate_selectors) := by
  constructor
  · intro pre sel post hsplit hpre hsel
    unfold Agent.extract_price_text Agent.price_selectors_tried
    rw [hsplit, extractPriceGo_skip page pre _ hpre, extractPriceGo_hit page sel post hsel]
    exact ⟨rfl, rfl⟩
  · intro hall
    unfold Agent.extract_price_text Agent.price_selectors_tried
    rw [extractPriceGo_all_empty page _ hall]
    exact ⟨rfl, rfl⟩

/-- Witness for `extract_price_first_match`: on a page where only the second
candidate is populated, the resolver returns that candidate's stripped text
and tries nothing after it. -/
theorem extract_price_first_match_witness :
    Agent.extract_price_text Agent.secondOnlyPage =
      Agent.candValue Agent.secondOnlyPage "#apex_desktop span.a-offscreen" ∧
    Agent.price_selectors_tried Agent.secondOnlyPage =
      ["#corePriceDisplay_desktop_feature_div span.a-offscreen"] ++
        ["#apex_desktop span.a-offscreen"] ∧
    Agent.candValue Agent.secondOnlyPage "#apex_desktop span.a-offscreen" = "$199.99" := by
  have h := (extract_price_first_match Agent.secondOnlyPage).1
    ["#corePriceDisplay_desktop_feature_div span.a-offscreen"]
    "#apex_desktop span.a-offscreen"
    ["span#priceblock_ourprice", "span#priceblock_dealprice",
     "span.a-price span.a-offscreen"]
    (by decide) (by decide) (by decide)
  exact ⟨h.1, h.2, by decide⟩

/-- C7: product-link resolution tries its three patterns in fixed order and
returns the selector of the first pattern with at least one match; when no
pattern matches it returns `none`, and a click on the virtual
`__FIRST_PRODUCT_LINK__` selector then raises the "no product found"
RuntimeError. -/
theorem product_link_resolution_order (env : Agent.Env) (page : Agent.Page) :
    (0 < page.count Agent.sel_dp_heading →
      Agent.find_first_product_link page = some Agent.sel_dp_heading) ∧
    (page.count Agent.sel_dp_heading = 0 → 0 < page.count Agent.sel_heading →
      Agent.find_first_product_link page = some Agent.sel_heading) ∧
    (page.count Agent.sel_dp_heading = 0 → page.count Agent.sel_heading = 0 →
      0 < page.count Agent.sel_any_dp →
      Agent.find_first_product_link page = some Agent.sel_any_dp) ∧
    ((env.wheel page 800).count Agent.sel_dp_heading = 0 →
      (env.wheel page 800).count Agent.sel_heading = 0 →
      (env.wheel page 800).count Agent.sel_any_dp = 0 →
      Agent.find_first_product_link (env.wheel page 800) = none ∧
      Agent.do_action env page Agent.fplClickStep =
        Except.error
          (Agent.PwError.runtime "Could not locate any product link on results page.")) := by
  refine ⟨?_, ?_, ?_, ?_⟩
  · intro h1
    simp [Agent.find_first_product_link, h1]
  · intro h1 h2
    simp [Agent.find_first_product_link, h1, h2]
  · intro h1 h2 h3
    simp [Agent.find_first_product_link, h1, h2, h3]
  · intro h1 h2 h3
    have hfind : Agent.find_first_product_link (env.wheel page 800) = none := by
      simp [Agent.find_first_product_link, h1, h2, h3]
    refine ⟨hfind, ?_⟩
    simp [Agent.do_action, Agent.fplClickStep, hfind]

/-- Witness for `product_link_resolution_order`: the loose heading-link
fallback fires when only the second pattern matches, and the click on the
virtual selector fails with the RuntimeError on a page with no matches. -/
theorem product_link_resolution_order_witness :
    Agent.find_first_product_link Agent.loosePage = some Agent.sel_heading ∧
    Agent.do_action Agent.idleEnv Agent.idlePage Agent.fplClickStep =
      Except.error
        (Agent.PwError.runtime "Could not locate any product link on results page.") :=
  ⟨(product_link_resolution_order Agent.idleEnv Agent.loosePage).2.1 (by decide) (by decide),
   ((product_link_resolution_order Agent.idleEnv Agent.idlePage).2.2.2 rfl rfl rfl).2⟩

/-- C9: a `wait_for_selector` step on the virtual selector when resolution
fails waits on the literal token as a CSS selector; on the resulting
timeout it retries resolution once, and when that also fails it re-raises
the timeout — it never raises the "no product found" RuntimeError that the
click path uses. -/
theorem wait_virtual_selector_timeout (env : Agent.Env) (page : Agent.Page)
    (hfind : Agent.find_first_product_link (env.wheel page 1000) = none)
    (hwait : (env.wheel page 1000).waitOk "__FIRST_PRODUCT_LINK__" 15000 = false)
    (hfind2 : Agent.find_first_product_link (env.wheel (env.wheel page 1000) 1600) = none) :
    Agent.do_action env page Agent.fplWaitStep =
      Except.error (Agent.PwError.timeout "__FIRST_PRODUCT_LINK__") ∧
    ∀ msg, Agent.do_action env page Agent.fplWaitStep ≠
      Except.error (Agent.PwError.runtime msg) := by
  have hc : strContains "__FIRST_PRODUCT_LINK__" "__FIRST_PRODUCT_LINK__" = true := by decide
  have hmain : Agent.do_action env page Agent.fplWaitStep =
      Except.error (Agent.PwError.timeout "__FIRST_PRODUCT_LINK__") := by
    simp [Agent.do_action, Agent.fplWaitStep, hfind, Agent.waitWithFallback, hwait, hc, hfind2]
  refine ⟨hmain, fun msg h => ?_⟩
  rw [hmain] at h
  exact absurd h (by simp)

/-- Witness for `wait_virtual_selector_timeout` on a page with no product
links and universally failing waits. -/
theorem wait_virtual_selector_timeout_witness :
    Agent.do_action Agent.idleEnv Agent.noLinkPage Agent.fplWaitStep =
      Except.error (Agent.PwError.timeout "__FIRST_PRODUCT_LINK__") :=
  (wait_virtual_selector_timeout Agent.idleEnv Agent.noLinkPage rfl rfl rfl).1

/-- Every branch of the rule-based planner emits a nonempty plan. -/
theorem ask_llm_ne_nil (goal : String) (s : Agent.PageState) : Agent.ask_llm goal s ≠ [] := by
  intro h
  unfold Agent.ask_llm at h
  dsimp only at h
  split_ifs at h

/-- A completed loop run that captured no final answer entered exactly as
many bodies as its fuel: with the rule-based planner the plan is never
empty, so no cycle exits early without a final answer or an error. -/
theorem agent_iter_full (env : Agent.Env) (goal : String) :
    ∀ (n : Nat) (p : Agent.Page) (c : Nat),
      Agent.agent_iterP env Agent.ask_llm goal n p = Except.ok (none, c) → c = n := by
  intro n
  induction n with
  | zero =>
    intro p c h
    simp only [Agent.agent_iterP, Except.ok.injEq, Prod.mk.injEq, true_and] at h
    omega
  | succ n ih =>
    intro p c h
    simp only [Agent.agent_iterP] at h
    rw [if_neg (ask_llm_ne_nil goal _)] at h
    split at h
    · exact absurd h (by simp)
    · simp at h
    · split at h
      · exact absurd h (by simp)
      · rename_i p2 hrs hrec2 r c2 hrec
        simp only [Except.ok.injEq, Prod.mk.injEq] at h
        obtain ⟨hr, hc⟩ := h
        rw [← hc, ih p2 c2 (by rw [hrec, hr])]

/-- C8: a run of the orchestrator in which no executed action raises and no
executed action yields a Final result (the loop completes with no captured
final answer) enters exactly the configured budget of 10 loop bodies, and
`agent_run` returns "No final answer produced.".  The planner never returns
an empty list (`ask_llm_ne_nil`), so no early no-steps exit occurs. -/
theorem loop_budget_exhaustion (env : Agent.Env) (goal : String) (p0 p1 : Agent.Page) (c : Nat)
    (hgoto : env.goto p0 "https://www.amazon.com/" = (p1, none))
    (hrun : Agent.agent_iterP env Agent.ask_llm goal 10 p1 = Except.ok (none, c)) :
    c = 10 ∧ Agent.agent_run env goal p0 = Except.ok "No final answer produced." := by
  refine ⟨agent_iter_full env goal 10 p1 c hrun, ?_⟩
  unfold Agent.agent_run Agent.agent_runP
  have h2 : (env.goto p0 "https://www.amazon.com/").2 = none := by rw [hgoto]
  have h1 : (env.goto p0 "https://www.amazon.com/").1 = p1 := by rw [hgoto]
  dsimp only
  rw [h2, h1, hrun]
  rfl

/-- Witness for `loop_budget_exhaustion`: in the quiescent environment the
run loops on the reset plan, enters exactly 10 bodies and reports no final
answer. -/
theorem loop_budget_exhaustion_witness :
    Agent.agent_run Agent.idleEnv "Apple AirPods Pro" Agent.idlePage =
      Except.ok "No final answer produced." :=
  (loop_budget_exhaustion Agent.idleEnv "Apple AirPods Pro" Agent.idlePage Agent.idlePage 10
    rfl rfl).2

/-- C10: a `final_answer` step with an empty result payload makes
`do_action` return the bare "FINAL:" result; the orchestrator captures the
empty final answer in its first cycle and breaks out of both loops, yet the
run returns "No final answer produced." because the captured empty string is
falsy in `final_result or ...` — externally indistinguishable from
iteration-budget exhaustion. -/
theorem empty_final_answer_indistinguishable (env : Agent.Env) (page : Agent.Page)
    (goal : String) (p0 p1 : Agent.Page)
    (hgoto : env.goto p0 "https://www.amazon.com/" = (p1, none)) :
    Agent.do_action env page { action := "final_answer", result := some "" } =
      Except.ok (page, "FINAL:") ∧
    Agent.agent_iterP env Agent.emptyFinalPlanner goal 10 p1 = Except.ok (some "", 1) ∧
    Agent.agent_runP env Agent.emptyFinalPlanner goal p0 =
      Except.ok "No final answer produced." := by
  refine ⟨rfl, rfl, ?_⟩
  unfold Agent.agent_runP
  have h2 : (env.goto p0 "https://www.amazon.com/").2 = none := by rw [hgoto]
  have h1 : (env.goto p0 "https://www.amazon.com/").1 = p1 := by rw [hgoto]
  dsimp only
  rw [h2, h1]
  rfl

/-- Witness for `empty_final_answer_indistinguishable` in the quiescent
environment. -/
theorem empty_final_answer_indistinguishable_witness :
    Agent.do_action Agent.idleEnv Agent.idlePage { action := "final_answer", result := some "" } =
      Except.ok (Agent.idlePage, "FINAL:") ∧
    Agent.agent_iterP Agent.idleEnv Agent.emptyFinalPlanner "Apple AirPods Pro" 10
        Agent.idlePage = Except.ok (some "", 1) ∧
    Agent.agent_runP Agent.idleEnv Agent.emptyFinalPlanner "Apple AirPods Pro" Agent.idlePage =
      Except.ok "No final answer produced." :=
  empty_final_answer_indistinguishable Agent.idleEnv Agent.idlePage "Apple AirPods Pro"
    Agent.idlePage Agent.idlePage rfl
